import Mathlib

/-!
Shallow embedding of `src/code.py` (module DevOS): process bookkeeping,
a fixed-budget memory manager, and a file system facade.  Machine-level
Python behaviour that the claims depend on is modelled explicitly:
attribute lookup (instance `__dict__` before class namespace) and
module-level name resolution, because the source exhibits two name
collisions that determine several claims.
-/

/-- Python exceptions and error outcomes that arise in this program. -/
inductive PyError where
  | typeError
  | nameError (n : String)
  | attributeError (n : String)
  | duplicateProcess
  | unknownProcess
  | fileNotFoundError
deriving DecidableEq, Repr

/-- An attribute value as it appears in this program: a plain integer data
attribute, or a callable (a function defined in a class body). -/
inductive PyAttr where
  | intVal (n : Int)
  | methodVal (n : String)
deriving DecidableEq, Repr

/-- Python attribute lookup: the instance `__dict__` is consulted before the
class namespace. -/
def pyGetAttr (instDict classDict : List (String × PyAttr)) (n : String) :
    Option PyAttr :=
  match instDict.lookup n with
  | some a => some a
  | none => classDict.lookup n

/-- Names bound at top level of `code.py`: the two imports and the four
class statements.  `ProcessManager` is referenced (line 117) but never
bound. -/
def moduleNamespace : List String :=
  ["os", "time", "Process", "MemoryManager", "FileSystem", "DevOS"]

/-- `class Process` (lines 11–29): pid, name, and a free-form status
string. -/
structure Process where
  pid : Int
  name : String
  status : String
deriving DecidableEq, Repr

/-- `Process.__init__(pid, name)` (lines 20–23): status starts as
"running". -/
def Process.mk_init (pid : Int) (n : String) : Process :=
  { pid := pid, name := n, status := "running" }

/-- `Process.terminate` (lines 25–29): sets status to "terminated". -/
def Process.terminate (p : Process) : Process :=
  { p with status := "terminated" }

/-- `class MemoryManager` state (lines 40–42): after `__init__`, the
instance `__dict__` binds `total_memory` and `free_memory`, both
integers.  Binding `free_memory` as data shadows the class-level method
of the same name. -/
structure MemoryManager where
  total_memory : Int
  free_memory : Int
deriving DecidableEq, Repr

/-- `MemoryManager.__init__(total_memory)` (lines 40–42). -/
def MemoryManager.mk_init (total : Int) : MemoryManager :=
  { total_memory := total, free_memory := total }

/-- The instance `__dict__` of a `MemoryManager` after `__init__`:
both names are bound to integers. -/
def MemoryManager.instDict (mm : MemoryManager) : List (String × PyAttr) :=
  [("total_memory", PyAttr.intVal mm.total_memory),
   ("free_memory", PyAttr.intVal mm.free_memory)]

/-- The class namespace of `MemoryManager`: the two functions defined in
the class body (lines 44 and 61). -/
def MemoryManager.classDict : List (String × PyAttr) :=
  [("allocate_memory", PyAttr.methodVal "allocate_memory"),
   ("free_memory", PyAttr.methodVal "free_memory")]

/-- Body of `MemoryManager.allocate_memory` (lines 44–59): grant iff the
request fits in free memory; on failure nothing changes. -/
def MemoryManager.allocate_memory (mm : MemoryManager) (_p : Process)
    (memory_required : Int) : MemoryManager × Bool :=
  if memory_required ≤ mm.free_memory then
    ({ mm with free_memory := mm.free_memory - memory_required }, true)
  else
    (mm, false)

/-- Body of the function `free_memory` defined in the class body
(lines 61–69): `self.free_memory += memory_to_free`, unconditionally. -/
def MemoryManager.free_memory_body (mm : MemoryManager) (_p : Process)
    (memory_to_free : Int) : MemoryManager :=
  { mm with free_memory := mm.free_memory + memory_to_free }

/-- Evaluating `mm.allocate_memory(process, n)`: attribute lookup followed
by a call; a non-callable result raises TypeError. -/
def MemoryManager.call_allocate_memory (mm : MemoryManager) (p : Process)
    (memory_required : Int) : Except PyError (MemoryManager × Bool) :=
  match pyGetAttr mm.instDict MemoryManager.classDict "allocate_memory" with
  | some (PyAttr.methodVal _) => Except.ok (mm.allocate_memory p memory_required)
  | some (PyAttr.intVal _) => Except.error PyError.typeError
  | none => Except.error (PyError.attributeError "allocate_memory")

/-- Evaluating `mm.free_memory(process, n)` (as line 141 does): attribute
lookup followed by a call; a non-callable result raises TypeError. -/
def MemoryManager.call_free_memory (mm : MemoryManager) (p : Process)
    (memory_to_free : Int) : Except PyError MemoryManager :=
  match pyGetAttr mm.instDict MemoryManager.classDict "free_memory" with
  | some (PyAttr.methodVal _) => Except.ok (mm.free_memory_body p memory_to_free)
  | some (PyAttr.intVal _) => Except.error PyError.typeError
  | none => Except.error (PyError.attributeError "free_memory")

/-- Modelled from the spec: the source constructs `ProcessManager()`
(line 117) and calls its `add_process`/`remove_process` methods, but no
such class is defined anywhere in the repository.  §4.2 specifies the
registry: a mapping from process identifier to Process with unique keys. -/
structure ProcessRegistry where
  procs : List (Int × Process)
deriving DecidableEq, Repr

/-- Modelled from the spec: §4.2 `add(process)` inserts by identifier and
fails with DuplicateProcess if the identifier already exists. -/
def ProcessRegistry.add_process (r : ProcessRegistry) (p : Process) :
    Except PyError ProcessRegistry :=
  if (r.procs.lookup p.pid).isSome then
    Except.error PyError.duplicateProcess
  else
    Except.ok ⟨(p.pid, p) :: r.procs⟩

/-- Modelled from the spec: §4.2 `remove(identifier)` deletes the entry and
fails with UnknownProcess if absent; it does not alter the Process. -/
def ProcessRegistry.remove_process (r : ProcessRegistry) (p : Process) :
    Except PyError ProcessRegistry :=
  if (r.procs.lookup p.pid).isSome then
    Except.ok ⟨r.procs.filter (fun e => e.1 != p.pid)⟩
  else
    Except.error PyError.unknownProcess

/-- Whether a character list begins with a path separator. -/
def headIsSlash : List Char → Bool
  | [] => false
  | c :: _ => c == '/'

/-- Whether a character list ends with a path separator. -/
def lastIsSlash (l : List Char) : Bool :=
  match l.getLast? with
  | some c => c == '/'
  | none => false

/-- `os.path.join(a, b)` for POSIX paths, two components (as used on
lines 90 and 103): an absolute `b` discards `a`; otherwise one separator
is inserted unless `a` is empty or already ends in one. -/
def ospathjoin (a b : String) : String :=
  if headIsSlash b.data then b
  else if a = "" ∨ lastIsSlash a.data then a ++ b
  else a ++ "/" ++ b

/-- `os.path.dirname(p)` for POSIX paths: the prefix of `p` up to and
including its last separator, with trailing separators stripped unless
the prefix is all separators. -/
def posixDirname (p : String) : String :=
  let head := (p.data.reverse.dropWhile (fun c => c != '/')).reverse
  if head ≠ [] ∧ ¬ head.all (fun c => c == '/') then
    String.mk ((head.reverse.dropWhile (fun c => c == '/')).reverse)
  else
    String.mk head

/-- Universal-newline translation performed by reading a file in text
mode with the default `newline=None`: each `"\r\n"` pair and each lone
`"\r"` comes back as `"\n"`. -/
def universalNewlines : List Char → List Char
  | [] => []
  | '\r' :: '\n' :: rest => '\n' :: universalNewlines rest
  | '\r' :: rest => '\n' :: universalNewlines rest
  | c :: rest => c :: universalNewlines rest

/-- The string returned by `file.read()` on a text-mode handle holding
`c`. -/
def pyReadTranslate (c : String) : String :=
  String.mk (universalNewlines c.data)

/-- `class FileSystem` (lines 72–104): the class itself stores only
`root_directory`; the backing byte store is the operating system — an
external collaborator per spec §1/§6 — modelled as the set of existing
directories plus a path-to-content map, carried alongside the root. -/
structure FileSystem where
  root_directory : String
  dirs : List String
  store : List (String × String)
deriving DecidableEq, Repr

/-- `FileSystem.create_file` (lines 82–91): opens the joined path in mode
"w" (truncating) and writes `content`.  The open raises FileNotFoundError
when the parent directory of the joined path does not exist; text-mode
writing on POSIX (`os.linesep = "\n"`) stores the content verbatim.
Other environmental failures (permissions and the like) are the opaque
IOError of spec §6 and are not modelled. -/
def FileSystem.create_file (fs : FileSystem) (file_path content : String) :
    Except PyError FileSystem :=
  let full := ospathjoin fs.root_directory file_path
  if fs.dirs.contains (posixDirname full) then
    Except.ok { fs with store := (full, content) :: fs.store }
  else
    Except.error PyError.fileNotFoundError

/-- `FileSystem.read_file` (lines 93–104): opens the joined path in mode
"r" — text mode, so the content comes back with universal-newline
translation applied — and returns the whole content; a missing file
raises FileNotFoundError. -/
def FileSystem.read_file (fs : FileSystem) (file_path : String) :
    Except PyError String :=
  match fs.store.lookup (ospathjoin fs.root_directory file_path) with
  | some c => Except.ok (pyReadTranslate c)
  | none => Except.error PyError.fileNotFoundError

/-- The composite state `DevOS.__init__` would build (lines 116–119). -/
structure DevOSState where
  memory_manager : MemoryManager
  process_manager : ProcessRegistry
  file_system : FileSystem
deriving DecidableEq, Repr

/-- `DevOS.__init__(total_memory, root_directory)` (lines 116–119): its
first statement evaluates the name `ProcessManager`, resolved against the
module namespace; an unbound name raises NameError before anything else
runs. -/
def DevOS.init (total_memory : Int) (root_directory : String) :
    Except PyError DevOSState :=
  if moduleNamespace.contains "ProcessManager" then
    Except.ok
      { memory_manager := MemoryManager.mk_init total_memory
        process_manager := ⟨[]⟩
        file_system := { root_directory := root_directory, dirs := [root_directory], store := [] } }
  else
    Except.error (PyError.nameError "ProcessManager")

/-- `DevOS.run_process(process)` (lines 121–132): allocate a fixed quota of
1024; on success register the process and report it running, otherwise
report insufficient memory.  Returns the new state and the printed line. -/
def DevOS.run_process (st : DevOSState) (p : Process) :
    Except PyError (DevOSState × String) := do
  let (mm, granted) ← st.memory_manager.call_allocate_memory p 1024
  if granted then do
    let pm ← st.process_manager.add_process p
    pure ({ st with memory_manager := mm, process_manager := pm },
      "Running process: " ++ p.name)
  else
    pure ({ st with memory_manager := mm },
      "Unable to run process: " ++ p.name ++ " (insufficient memory)")

/-- `DevOS.terminate_process(process)` (lines 134–144), statement by
statement: call `free_memory` on the memory manager, then remove the
process from the registry, then mark the process terminated, then print.
Returns the new state, the mutated process and the printed line. -/
def DevOS.terminate_process (st : DevOSState) (p : Process) :
    Except PyError (DevOSState × Process × String) := do
  let mm ← st.memory_manager.call_free_memory p 1024
  let pm ← st.process_manager.remove_process p
  let p2 := p.terminate
  pure ({ st with memory_manager := mm, process_manager := pm }, p2,
    "Terminated process: " ++ p2.name)

/-- Running a whole list of processes in order with `run_process`,
stopping at the first raised exception. -/
def DevOS.run_many (st : DevOSState) (ps : List Process) :
    Except PyError DevOSState :=
  match ps with
  | [] => Except.ok st
  | p :: rest => do
    let (st2, _) ← DevOS.run_process st p
    DevOS.run_many st2 rest

/-! Helper lemmas shared by several claim theorems. -/

/-- When the fixed quota of 1024 does not fit in free memory,
`run_process` returns the state unchanged together with the rejection
line. -/
theorem run_process_reject_aux (st : DevOSState) (p : Process)
    (h : st.memory_manager.free_memory < 1024) :
    DevOS.run_process st p =
      Except.ok (st, "Unable to run process: " ++ p.name ++ " (insufficient memory)") := by
  simp [DevOS.run_process, MemoryManager.call_allocate_memory, pyGetAttr,
    MemoryManager.instDict, MemoryManager.classDict, List.lookup,
    MemoryManager.allocate_memory]
  rw [if_neg (by omega)]
  rfl

/-- With zero free memory, any sequence of `run_process` calls leaves the
whole state unchanged. -/
theorem run_many_zero_aux (st : DevOSState) (h : st.memory_manager.free_memory = 0)
    (ps : List Process) : DevOS.run_many st ps = Except.ok st := by
  induction ps with
  | nil => rfl
  | cons p rest ih =>
      rw [DevOS.run_many]
      rw [run_process_reject_aux st p (by omega)]
      simpa [Bind.bind, Except.bind] using ih

/-! Claim theorems. -/

/-- Claim C1: for every allocator state with 0 ≤ free and every amount ≥ 0,
`allocate_memory` grants and decrements free by the amount when it fits in
free memory, and otherwise returns false leaving free and total
unchanged — no partial grants. -/
theorem allocate_memory_spec (mm : MemoryManager) (p : Process) (amount : Int)
    (_hfree : 0 ≤ mm.free_memory) (_hamt : 0 ≤ amount) :
    (amount ≤ mm.free_memory →
      mm.allocate_memory p amount =
        (MemoryManager.mk mm.total_memory (mm.free_memory - amount), true)) ∧
    (mm.free_memory < amount → mm.allocate_memory p amount = (mm, false)) := by
  constructor
  · intro hle
    simp [MemoryManager.allocate_memory, hle]
  · intro hlt
    rw [MemoryManager.allocate_memory, if_neg (by omega)]

/-- Witness for C1 at total = free = 4096, amount = 1024. -/
theorem allocate_memory_spec_witness :
    (0 : Int) ≤ (MemoryManager.mk 4096 4096).free_memory ∧ (0 : Int) ≤ 1024 ∧
    (((1024 : Int) ≤ (MemoryManager.mk 4096 4096).free_memory →
      (MemoryManager.mk 4096 4096).allocate_memory (Process.mk 1 "P1" "running") 1024 =
        (MemoryManager.mk 4096 3072, true)) ∧
     ((MemoryManager.mk 4096 4096).free_memory < 1024 →
      (MemoryManager.mk 4096 4096).allocate_memory (Process.mk 1 "P1" "running") 1024 =
        (MemoryManager.mk 4096 4096, false))) :=
  ⟨by decide, by decide,
    allocate_memory_spec (MemoryManager.mk 4096 4096) (Process.mk 1 "P1" "running") 1024
      (by decide) (by decide)⟩

/-- Claim C2 (code bug): the claim says `terminate_process` releases the
quota, removes the registry entry, sets the status and prints, in that
order.  In the code the very first step evaluates `mm.free_memory(...)`,
whose attribute lookup yields the integer bound by `__init__`, so every
call raises TypeError and none of the four steps completes. -/
theorem terminate_process_never_completes (st : DevOSState) (p : Process) :
    DevOS.terminate_process st p = Except.error PyError.typeError := rfl

/-- Claim C3: `MemoryManager.__init__` binds the instance attribute
`free_memory` to the integer `total_memory`; since the instance dict
shadows the class namespace, invoking `free_memory` on any instance (as
line 141 does) raises TypeError, so the release step never completes. -/
theorem free_memory_attribute_shadows_method (t : Int) (mm : MemoryManager)
    (p : Process) (amt : Int) :
    (MemoryManager.mk_init t).free_memory = t ∧
    mm.call_free_memory p amt = Except.error PyError.typeError :=
  ⟨rfl, rfl⟩

/-- Claim C4: `ProcessManager` is not bound anywhere in the module, so
every `DevOS(total_memory, root_directory)` construction raises NameError
and no DevOS instance can be created. -/
theorem devos_init_raises_nameError (total : Int) (root : String) :
    DevOS.init total root = Except.error (PyError.nameError "ProcessManager") := rfl

/-- Claim C5 (code bug): a correctly paired sequence should restore free
memory — with total 4096, running P1 then terminating P1 should end with
free = 4096.  In the code the run leaves free = 3072 and the terminate
raises TypeError without releasing anything, so free stays at 3072 and
the claimed accounting invariant fails. -/
theorem paired_sequence_free_not_restored :
    DevOS.run_process
        (DevOSState.mk (MemoryManager.mk 4096 4096) (ProcessRegistry.mk [])
          (FileSystem.mk "/" ["/"] []))
        (Process.mk 1 "Process 1" "running") =
      Except.ok
        (DevOSState.mk (MemoryManager.mk 4096 3072)
          (ProcessRegistry.mk [(1, Process.mk 1 "Process 1" "running")])
          (FileSystem.mk "/" ["/"] []), "Running process: Process 1") ∧
    DevOS.terminate_process
        (DevOSState.mk (MemoryManager.mk 4096 3072)
          (ProcessRegistry.mk [(1, Process.mk 1 "Process 1" "running")])
          (FileSystem.mk "/" ["/"] []))
        (Process.mk 1 "Process 1" "running") =
      Except.error PyError.typeError :=
  ⟨rfl, rfl⟩

/-- Claim C6: whenever allocating the fixed quota fails (1024 > free),
`run_process` mutates nothing — allocator, registry and the process are
all untouched, the process is not registered, and the insufficient-memory
rejection line is produced. -/
theorem run_process_rejection_no_mutation (st : DevOSState) (p : Process)
    (h : st.memory_manager.free_memory < 1024) :
    DevOS.run_process st p =
      Except.ok (st, "Unable to run process: " ++ p.name ++ " (insufficient memory)") :=
  run_process_reject_aux st p h

/-- Witness for C6 at a state with free = 0 and P1 registered. -/
theorem run_process_rejection_no_mutation_witness :
    (DevOSState.mk (MemoryManager.mk 1024 0)
        (ProcessRegistry.mk [(1, Process.mk 1 "Process 1" "running")])
        (FileSystem.mk "/" ["/"] [])).memory_manager.free_memory < 1024 ∧
    DevOS.run_process
        (DevOSState.mk (MemoryManager.mk 1024 0)
          (ProcessRegistry.mk [(1, Process.mk 1 "Process 1" "running")])
          (FileSystem.mk "/" ["/"] []))
        (Process.mk 2 "Process 2" "running") =
      Except.ok
        (DevOSState.mk (MemoryManager.mk 1024 0)
          (ProcessRegistry.mk [(1, Process.mk 1 "Process 1" "running")])
          (FileSystem.mk "/" ["/"] []),
        "Unable to run process: " ++ "Process 2" ++ " (insufficient memory)") :=
  ⟨by decide,
    run_process_rejection_no_mutation
      (DevOSState.mk (MemoryManager.mk 1024 0)
        (ProcessRegistry.mk [(1, Process.mk 1 "Process 1" "running")])
        (FileSystem.mk "/" ["/"] []))
      (Process.mk 2 "Process 2" "running") (by decide)⟩

/-- Claim C7: the function `free_memory` defined in the class body
(lines 61–69) increments free by the given amount unconditionally — for
every amount, with no check that it was previously granted — and leaves
total untouched. -/
theorem free_memory_body_unconditional (mm : MemoryManager) (p : Process)
    (amt : Int) :
    (mm.free_memory_body p amt).free_memory = mm.free_memory + amt ∧
    (mm.free_memory_body p amt).total_memory = mm.total_memory :=
  ⟨rfl, rfl⟩

/-- Claim C8 (code bug): Scenario A — total 4096, quota 1024.  Running P1
then P2 leaves free = 2048 as claimed, but terminating P1 raises
TypeError instead of restoring free to 3072, removing P1 and marking it
Terminated. -/
theorem scenario_a_terminate_diverges :
    DevOS.run_process
        (DevOSState.mk (MemoryManager.mk 4096 4096) (ProcessRegistry.mk [])
          (FileSystem.mk "/" ["/"] []))
        (Process.mk 1 "Process 1" "running") =
      Except.ok
        (DevOSState.mk (MemoryManager.mk 4096 3072)
          (ProcessRegistry.mk [(1, Process.mk 1 "Process 1" "running")])
          (FileSystem.mk "/" ["/"] []), "Running process: Process 1") ∧
    DevOS.run_process
        (DevOSState.mk (MemoryManager.mk 4096 3072)
          (ProcessRegistry.mk [(1, Process.mk 1 "Process 1" "running")])
          (FileSystem.mk "/" ["/"] []))
        (Process.mk 2 "Process 2" "running") =
      Except.ok
        (DevOSState.mk (MemoryManager.mk 4096 2048)
          (ProcessRegistry.mk [(2, Process.mk 2 "Process 2" "running"),
            (1, Process.mk 1 "Process 1" "running")])
          (FileSystem.mk "/" ["/"] []), "Running process: Process 2") ∧
    DevOS.terminate_process
        (DevOSState.mk (MemoryManager.mk 4096 2048)
          (ProcessRegistry.mk [(2, Process.mk 2 "Process 2" "running"),
            (1, Process.mk 1 "Process 1" "running")])
          (FileSystem.mk "/" ["/"] []))
        (Process.mk 1 "Process 1" "running") =
      Except.error PyError.typeError :=
  ⟨rfl, rfl, rfl⟩

/-- Claim C9: with free memory at 0, a `run_process` call is rejected with
free still 0 and the process not registered, and any further sequence of
`run_process` calls leaves the whole state unchanged. -/
theorem zero_free_rejects_all (st : DevOSState) (p : Process) (ps : List Process)
    (h : st.memory_manager.free_memory = 0) :
    DevOS.run_process st p =
      Except.ok (st, "Unable to run process: " ++ p.name ++ " (insufficient memory)") ∧
    DevOS.run_many st ps = Except.ok st :=
  ⟨run_process_reject_aux st p (by omega), run_many_zero_aux st h ps⟩

/-- Witness for C9 at the Scenario B state: total 1024, free 0 after P1. -/
theorem zero_free_rejects_all_witness :
    (DevOSState.mk (MemoryManager.mk 1024 0)
        (ProcessRegistry.mk [(1, Process.mk 1 "Process 1" "running")])
        (FileSystem.mk "/" ["/"] [])).memory_manager.free_memory = 0 ∧
    (DevOS.run_process
        (DevOSState.mk (MemoryManager.mk 1024 0)
          (ProcessRegistry.mk [(1, Process.mk 1 "Process 1" "running")])
          (FileSystem.mk "/" ["/"] []))
        (Process.mk 2 "Process 2" "running") =
      Except.ok
        (DevOSState.mk (MemoryManager.mk 1024 0)
          (ProcessRegistry.mk [(1, Process.mk 1 "Process 1" "running")])
          (FileSystem.mk "/" ["/"] []),
        "Unable to run process: " ++ "Process 2" ++ " (insufficient memory)") ∧
    DevOS.run_many
        (DevOSState.mk (MemoryManager.mk 1024 0)
          (ProcessRegistry.mk [(1, Process.mk 1 "Process 1" "running")])
          (FileSystem.mk "/" ["/"] []))
        [Process.mk 2 "Process 2" "running", Process.mk 3 "Process 3" "running"] =
      Except.ok
        (DevOSState.mk (MemoryManager.mk 1024 0)
          (ProcessRegistry.mk [(1, Process.mk 1 "Process 1" "running")])
          (FileSystem.mk "/" ["/"] []))) :=
  ⟨by decide,
    zero_free_rejects_all
      (DevOSState.mk (MemoryManager.mk 1024 0)
        (ProcessRegistry.mk [(1, Process.mk 1 "Process 1" "running")])
        (FileSystem.mk "/" ["/"] []))
      (Process.mk 2 "Process 2" "running")
      [Process.mk 2 "Process 2" "running", Process.mk 3 "Process 3" "running"]
      (by decide)⟩

/-- Claim C10, counterexample: the round-trip is not exact for every
content string.  Writing `"a\rb"` under root `"/"` succeeds, but text-mode
reading applies universal-newline translation and returns `"a\nb"`, which
differs from the written content. -/
theorem create_then_read_cr_counterexample :
    FileSystem.create_file (FileSystem.mk "/" ["/"] []) "example.txt" "a\rb" =
      Except.ok (FileSystem.mk "/" ["/"] [("/example.txt", "a\rb")]) ∧
    (FileSystem.mk "/" ["/"] [("/example.txt", "a\rb")]).read_file "example.txt" =
      Except.ok "a\nb" ∧
    ("a\nb" : String) ≠ "a\rb" :=
  ⟨rfl, rfl, by decide⟩

/-- Claim C10 as amended: whenever `create_file(path, content)` succeeds —
the parent directory of the joined path exists, otherwise the open raises
FileNotFoundError — `read_file(path)` on the resulting `FileSystem`
returns the universal-newline translation of `content` (each CRLF and
each lone CR reads back as LF); for content without carriage returns this
is exactly `content`. -/
theorem create_then_read_amended (fs fs2 : FileSystem) (file_path content : String)
    (h : fs.create_file file_path content = Except.ok fs2) :
    fs2.read_file file_path = Except.ok (pyReadTranslate content) := by
  simp only [FileSystem.create_file] at h
  split at h
  · injection h with h2
    subst h2
    simp [FileSystem.read_file, List.lookup]
  · cases h

/-- Witness for the amended C10 at root "/", path "example.txt", content
"hello". -/
theorem create_then_read_amended_witness :
    FileSystem.create_file (FileSystem.mk "/" ["/"] []) "example.txt" "hello" =
      Except.ok (FileSystem.mk "/" ["/"] [("/example.txt", "hello")]) ∧
    (FileSystem.mk "/" ["/"] [("/example.txt", "hello")]).read_file "example.txt" =
      Except.ok (pyReadTranslate "hello") :=
  ⟨rfl,
    create_then_read_amended (FileSystem.mk "/" ["/"] [])
      (FileSystem.mk "/" ["/"] [("/example.txt", "hello")]) "example.txt" "hello" rfl⟩
